import Mathlib

/-!
Verification of the RedditListener scraping core (`reddit_scraper.py`) against its
natural-language specification.

The Python code is shallowly embedded: strings are Lean `String`s manipulated as
`List Char` (the code only meaningfully handles ASCII), `datetime` values are
modelled as integer microseconds/seconds since the Unix epoch, HTML soups are a
`Node` tree mirroring what BeautifulSoup exposes to the code (tag name,
attributes, class list, children, text), and network requests are an explicit
`FetchOutcome` (a response with a status and parsed body, or a raised transport
error).  Python exceptions are modelled by `Option`/explicit branches at the
exact places the code catches them.
-/

/-! ## Basic character and list-of-character utilities (Python string semantics) -/

/-- Python `\s` / `str.strip` whitespace for the ASCII range:
space, tab, newline, carriage return, vertical tab, form feed. -/
def isSpacePy (c : Char) : Bool :=
  c == ' ' || c == '\t' || c == '\n' || c == '\r' || c == '\x0b' || c == '\x0c'

/-- Python `\w` or `-` (the character class `[\w-]` used by the author regexes),
restricted to ASCII: letters, digits, underscore, hyphen. -/
def isWordDash (c : Char) : Bool :=
  c.isAlphanum || c == '_' || c == '-'

/-- Python `str.strip()` on a list of characters. -/
def pyStripL (cs : List Char) : List Char :=
  ((cs.dropWhile isSpacePy).reverse.dropWhile isSpacePy).reverse

/-- Python substring containment `needle in hay`. -/
def containsSubL : List Char → List Char → Bool
  | n, [] => n.isEmpty
  | n, c :: rest => n.isPrefixOf (c :: rest) || containsSubL n rest

/-- Python `str.split(sep)` for a single-character separator (keeps empty pieces),
written with an accumulator for the current piece (in reverse). -/
def splitCharAux (sep : Char) (cur : List Char) : List Char → List (List Char)
  | [] => [cur.reverse]
  | c :: r => if c == sep then cur.reverse :: splitCharAux sep [] r else splitCharAux sep (c :: cur) r

/-- Python `str.split()` (split on whitespace runs, dropping empty pieces). -/
def splitWsAux (cur : List Char) : List Char → List (List Char)
  | [] => if cur.isEmpty then [] else [cur.reverse]
  | c :: r =>
    if isSpacePy c then
      if cur.isEmpty then splitWsAux [] r else cur.reverse :: splitWsAux [] r
    else splitWsAux (c :: cur) r

def splitWs (cs : List Char) : List (List Char) := splitWsAux [] cs

/-- Python `' '.join(words)`. -/
def joinSpace : List (List Char) → List Char
  | [] => []
  | [w] => w
  | w :: ws => w ++ ' ' :: joinSpace ws

/-- Python `str.replace(old, new)`, fuelled so that the recursion is
structural (each step consumes at least one character, so fuel = input length
is always enough; the fuel-exhausted case is unreachable for that fuel).
The code only calls it with non-empty `old`; an empty `old` is returned
unchanged. -/
def replaceFuel (old new : List Char) : Nat → List Char → List Char
  | 0, s => s
  | _ + 1, [] => []
  | fuel + 1, c :: rest =>
    if !old.isEmpty && old.isPrefixOf (c :: rest) then
      new ++ replaceFuel old new fuel ((c :: rest).drop old.length)
    else
      c :: replaceFuel old new fuel rest

/-- Python `str.replace(old, new)`: all non-overlapping occurrences, left to right. -/
def replaceAllL (old new s : List Char) : List Char :=
  replaceFuel old new s.length s

/-- Python `str.replace` on `String`s. -/
def strReplace (s old new : String) : String :=
  String.mk (replaceAllL old.toList new.toList s.toList)

/-- Python slicing `s[:n]` on a `String`. -/
def strTake (n : Nat) (s : String) : String := String.mk (s.toList.take n)

def natFromDigits (ds : List Char) : Nat :=
  ds.foldl (fun a c => a * 10 + (c.toNat - 48)) 0

/-! ## Calendar / `datetime` model

`datetime` values are integers: seconds since the Unix epoch for the
TimeNormalizer (`parse_relative_time` only does second-granularity arithmetic),
and microseconds since the epoch for `fromisoformat` (which can parse
fractional seconds).  Conversions use the standard civil-calendar algorithms. -/

/-- Days since 1970-01-01 of the civil date y-m-d (proleptic Gregorian). -/
def daysFromCivil (y m d : Nat) : Int :=
  let yi : Int := if m ≤ 2 then (y : Int) - 1 else (y : Int)
  let era : Int := Int.fdiv yi 400
  let yoe : Int := yi - era * 400
  let mp : Int := if m > 2 then (m : Int) - 3 else (m : Int) + 9
  let doy : Int := (153 * mp + 2) / 5 + (d : Int) - 1
  let doe : Int := yoe * 365 + yoe / 4 - yoe / 100 + doy
  era * 146097 + doe - 719468

/-- Civil date (y, m, d) of a count of days since 1970-01-01. -/
def civilFromDays (z0 : Int) : Int × Int × Int :=
  let z := z0 + 719468
  let era := Int.fdiv z 146097
  let doe := (z - era * 146097).toNat
  let yoe := (doe - doe / 1460 + doe / 36524 - doe / 146096) / 365
  let doy := doe - (365 * yoe + yoe / 4 - yoe / 100)
  let mp := (5 * doy + 2) / 153
  let d := doy - (153 * mp + 2) / 5 + 1
  let m := if mp < 10 then mp + 3 else mp - 9
  let y : Int := era * 400 + (yoe : Int) + (if m ≤ 2 then 1 else 0)
  (y, (m : Int), (d : Int))

def padZero (w : Nat) (n : Nat) : List Char :=
  let ds := (toString n).toList
  List.replicate (w - ds.length) '0' ++ ds

/-- Model of `datetime.isoformat()` for a naive datetime held as seconds since
the epoch, at second granularity: "YYYY-MM-DDTHH:MM:SS". -/
def isoformat (t : Int) : String :=
  let days := Int.fdiv t 86400
  let secs := (Int.emod t 86400).toNat
  let ymd := civilFromDays days
  String.mk (padZero 4 ymd.1.toNat ++ '-' :: padZero 2 ymd.2.1.toNat ++ '-' :: padZero 2 ymd.2.2.toNat
    ++ 'T' :: padZero 2 (secs / 3600) ++ ':' :: padZero 2 (secs % 3600 / 60) ++ ':' :: padZero 2 (secs % 60))

def isLeapYear (y : Nat) : Bool :=
  y % 4 == 0 && (y % 100 != 0 || y % 400 == 0)

def daysInMonth (y m : Nat) : Nat :=
  if m == 2 then (if isLeapYear y then 29 else 28)
  else if m == 4 || m == 6 || m == 9 || m == 11 then 30
  else 31

/-- Read exactly `n` ASCII digits, returning their value and the rest. -/
def takeNDigitsAux (acc : Nat) : Nat → List Char → Option (Nat × List Char)
  | 0, cs => some (acc, cs)
  | _ + 1, [] => none
  | n + 1, c :: cs => if c.isDigit then takeNDigitsAux (acc * 10 + (c.toNat - 48)) n cs else none

/-- The microsecond key of a validated date-time tuple. -/
def dtKey (y mo dy h mi sec micro : Nat) : Int :=
  (daysFromCivil y mo dy * 86400 + ((h * 3600 + mi * 60 + sec : Nat) : Int)) * 1000000 + (micro : Int)

/-- Fractional-second part of `datetime.fromisoformat`: one to six digits
ending the string, scaled to microseconds (the Python ≥ 3.11 rule; before 3.11
exactly 3 or 6 digits were required — the difference does not affect any value
this repository produces or consumes). -/
def parseFraction (r : List Char) : Option Nat :=
  if !r.isEmpty && r.all Char.isDigit && r.length ≤ 6 then
    some (natFromDigits r * 10 ^ (6 - r.length))
  else none

/-- Time-of-day part of `datetime.fromisoformat`: HH, HH:MM or HH:MM:SS with an
optional fractional part, with field validation as in `datetime.time`. -/
def parseIsoTime (y mo dy : Nat) (r : List Char) : Option Int :=
  match takeNDigitsAux 0 2 r with
  | none => none
  | some (h, r1) =>
    if h ≥ 24 then none
    else
      match r1 with
      | [] => some (dtKey y mo dy h 0 0 0)
      | ':' :: r2 =>
        match takeNDigitsAux 0 2 r2 with
        | none => none
        | some (mi, r3) =>
          if mi ≥ 60 then none
          else
            match r3 with
            | [] => some (dtKey y mo dy h mi 0 0)
            | ':' :: r4 =>
              match takeNDigitsAux 0 2 r4 with
              | none => none
              | some (sec, r5) =>
                if sec ≥ 60 then none
                else
                  match r5 with
                  | [] => some (dtKey y mo dy h mi sec 0)
                  | '.' :: r6 =>
                    match parseFraction r6 with
                    | some micro => some (dtKey y mo dy h mi sec micro)
                    | none => none
                  | _ => none
            | _ => none
      | _ => none

/-- Model of `datetime.fromisoformat` for naive datetimes in the extended
format "YYYY-MM-DD[<sep>HH[:MM[:SS[.f{1,6}]]]]" — every value this repository
produces (isoformat output) or receives (YYYY-MM-DD form fields).  Strings
carrying a timezone offset map to `none`: in the Python code an aware value
always makes every comparison against the remaining naive values raise
`TypeError`, which the code's handlers turn into exactly the same fail-open
result as a parse failure, so this identification preserves the observable
behaviour of the filter.  Returns microseconds since the epoch. -/
def fromisoformat (s : String) : Option Int :=
  match takeNDigitsAux 0 4 s.toList with
  | none => none
  | some (y, r1) =>
    match r1 with
    | '-' :: r2 =>
      match takeNDigitsAux 0 2 r2 with
      | none => none
      | some (mo, r3) =>
        match r3 with
        | '-' :: r4 =>
          match takeNDigitsAux 0 2 r4 with
          | none => none
          | some (dy, r5) =>
            if 1 ≤ y ∧ 1 ≤ mo ∧ mo ≤ 12 ∧ 1 ≤ dy ∧ dy ≤ daysInMonth y mo then
              match r5 with
              | [] => some (dtKey y mo dy 0 0 0 0)
              | _ :: r6 => parseIsoTime y mo dy r6
            else none
        | _ => none
    | _ => none

/-! ## TimeNormalizer: `parse_relative_time` (reddit_scraper.py lines 45-79) -/

def nowL : List Char := "now".toList
def justNowL : List Char := "just now".toList
def agoL : List Char := "ago".toList
def hrL : List Char := "hr".toList
def dotL : List Char := ".".toList
def mentionL : List Char := "u/".toList

/-- One attempt of `re.search(r'(\d+)\s*(min|hr|hour|day|week|month|year)', t)`
anchored at the current position: greedy digits, then optional whitespace, then
the unit alternation in the regex's order.  (No backtracking is needed: after
maximal digits the next character is not a digit, units start with letters,
and whitespace cannot begin a unit.) -/
def unitAlt (cs : List Char) : Option (List Char) :=
  if List.isPrefixOf "min".toList cs then some "min".toList
  else if List.isPrefixOf "hr".toList cs then some "hr".toList
  else if List.isPrefixOf "hour".toList cs then some "hour".toList
  else if List.isPrefixOf "day".toList cs then some "day".toList
  else if List.isPrefixOf "week".toList cs then some "week".toList
  else if List.isPrefixOf "month".toList cs then some "month".toList
  else if List.isPrefixOf "year".toList cs then some "year".toList
  else none

def numUnitAt (cs : List Char) : Option (Nat × List Char) :=
  let ds := cs.takeWhile Char.isDigit
  if ds.isEmpty then none
  else
    match unitAlt ((cs.dropWhile Char.isDigit).dropWhile isSpacePy) with
    | some u => some (natFromDigits ds, u)
    | none => none

/-- Leftmost match of the `(number)(unit)` pattern: try every position from the
left, advancing one character on failure, as `re.search` does. -/
def reSearchNumUnit : List Char → Option (Nat × List Char)
  | [] => none
  | c :: rest =>
    match numUnitAt (c :: rest) with
    | some r => some r
    | none => reSearchNumUnit rest

/-- Python `timedelta` construction raises `OverflowError` when the normalized
day count exceeds 999999999 days. -/
def timedeltaOK (deltaSec : Int) : Prop := Int.fdiv deltaSec 86400 ≤ 999999999

/-- `datetime` arithmetic raises `OverflowError` outside [datetime.min, datetime.max]
(year 1 to year 9999), here in epoch seconds. -/
def datetimeOK (t : Int) : Prop := -62135596800 ≤ t ∧ t ≤ 253402300799

instance (d : Int) : Decidable (timedeltaOK d) := by unfold timedeltaOK; infer_instance
instance (t : Int) : Decidable (datetimeOK t) := by unfold datetimeOK; infer_instance

/-- The unit dispatch of lines 62-75, as seconds: `'min' in unit` etc. on the
matched unit string, with month ≈ 30 days and year ≈ 365 days. -/
def deltaOfMatch (value : Nat) (unit : List Char) : Int :=
  let v : Int := (value : Int)
  if containsSubL "min".toList unit then v * 60
  else if containsSubL hrL unit || containsSubL "hour".toList unit then v * 3600
  else if containsSubL "day".toList unit then v * 86400
  else if containsSubL "week".toList unit then v * 604800
  else if containsSubL "month".toList unit then v * 30 * 86400
  else if containsSubL "year".toList unit then v * 365 * 86400
  else 0

/-- The instant computed by `parse_relative_time` from the lowered, stripped
input (reddit_scraper.py lines 47-79).  Every `return` in the Python function
is `<instant>.isoformat()`; this function is that instant.  The bare `except`
(line 78) catches the `OverflowError`s of `timedelta`/`datetime` arithmetic and
returns the current instant, modelled by the overflow guard below. -/
def prt_instant (now : Int) (t : List Char) : Int :=
  if containsSubL justNowL t || containsSubL nowL t then now
  else
    match reSearchNumUnit t with
    | none => now
    | some (value, unit) =>
      if timedeltaOK (deltaOfMatch value unit) ∧ datetimeOK (now - deltaOfMatch value unit)
      then now - deltaOfMatch value unit
      else now

/-- `parse_relative_time` (reddit_scraper.py lines 45-79): lower-case and strip
the input, then return the isoformat of the computed instant. -/
def parse_relative_time (now : Int) (time_str : String) : String :=
  isoformat (prt_instant now (pyStripL (time_str.toList.map Char.toLower)))

/-! ## Claims C1 and C10 -/

/-- C1: for every input string (empty, malformed, or matching no pattern),
`parse_relative_time` returns the isoformat of some instant — i.e. a valid
ISO-8601 timestamp, never an exception; when no `(number)(unit)` pattern is
found the returned value is the current instant; and when the pattern matches
but the arithmetic overflows (the `OverflowError` caught by the bare
`except`), the returned value is again the current instant. -/
theorem c1_time_normalizer_total (now : Int) (s : String) :
    (∃ d : Int, parse_relative_time now s = isoformat d) ∧
    (reSearchNumUnit (pyStripL (s.toList.map Char.toLower)) = none →
      parse_relative_time now s = isoformat now) ∧
    (∀ (v : Nat) (u : List Char),
      reSearchNumUnit (pyStripL (s.toList.map Char.toLower)) = some (v, u) →
      (containsSubL justNowL (pyStripL (s.toList.map Char.toLower)) ||
        containsSubL nowL (pyStripL (s.toList.map Char.toLower))) = false →
      ¬(timedeltaOK (deltaOfMatch v u) ∧ datetimeOK (now - deltaOfMatch v u)) →
      parse_relative_time now s = isoformat now) := by
  refine ⟨⟨prt_instant now (pyStripL (s.toList.map Char.toLower)), rfl⟩, ?_, ?_⟩
  · intro h
    unfold parse_relative_time
    have hp : prt_instant now (pyStripL (s.toList.map Char.toLower)) = now := by
      unfold prt_instant
      rw [h]
      split <;> rfl
    rw [hp]
  · intro v u hm hnow hov
    unfold parse_relative_time
    have hp : prt_instant now (pyStripL (s.toList.map Char.toLower)) = now := by
      unfold prt_instant
      rw [hm, hnow]
      simp only [Bool.false_eq_true, if_false]
      rw [if_neg hov]
    rw [hp]

theorem c1_time_normalizer_total_witness :
    parse_relative_time 0 "garbage input" = isoformat 0 ∧
    parse_relative_time 0 "9999999999999999 years ago" = isoformat 0 :=
  ⟨(c1_time_normalizer_total 0 "garbage input").2.1 (by decide),
    (c1_time_normalizer_total 0 "9999999999999999 years ago").2.2
      9999999999999999 ("year".toList) (by decide) (by decide) (by decide)⟩

/-- C10: the immediacy check `'now' in time_str` is a substring containment
test on the lowered, stripped input, performed before the numeric match: any
input containing "now" (e.g. "unknown", "snowed in 3 hr ago") yields the
current instant even when a `(number)(unit)` pattern is present. -/
theorem c10_now_substring_check (now : Int) (s : String)
    (h : containsSubL nowL (pyStripL (s.toList.map Char.toLower)) = true) :
    parse_relative_time now s = isoformat now := by
  unfold parse_relative_time
  have hp : prt_instant now (pyStripL (s.toList.map Char.toLower)) = now := by
    unfold prt_instant
    rw [h]
    simp
  rw [hp]

theorem c10_now_substring_check_witness :
    parse_relative_time 7 "snowed in 3 hr ago" = isoformat 7 ∧
    reSearchNumUnit (pyStripL ("snowed in 3 hr ago".toList.map Char.toLower)) =
      some (3, hrL) :=
  ⟨c10_now_substring_check 7 "snowed in 3 hr ago" (by decide), by decide⟩

/-! ## HTML soup model

A `Node` mirrors what BeautifulSoup exposes to the scraper: tag name, attribute
list, class list (BeautifulSoup parses `class` into a list), children, or a
text node.  `find`/`find_all` search the descendants in document (preorder)
order; `get_text(separator, strip=True)` joins the stripped non-empty descendant
strings with the separator. -/

inductive Node where
  | elem (tag : String) (attrs : List (String × String)) (classes : List String) (children : List Node)
  | text (s : String)

mutual
def nodeTexts : Node → List String
  | Node.text s => [s]
  | Node.elem _ _ _ cs => nodeTextsList cs
def nodeTextsList : List Node → List String
  | [] => []
  | c :: cs => nodeTexts c ++ nodeTextsList cs
end

/-- BeautifulSoup `get_text(separator=sep, strip=True)`. -/
def get_text (sep : String) (n : Node) : String :=
  String.intercalate sep
    (((nodeTexts n).map (fun s => String.mk (pyStripL s.toList))).filter (fun s => s ≠ ""))

mutual
def nodeDescendants : Node → List Node
  | Node.text _ => []
  | Node.elem _ _ _ cs => descList cs
def descList : List Node → List Node
  | [] => []
  | c :: cs => c :: (nodeDescendants c ++ descList cs)
end

def hasTag (t : String) (n : Node) : Bool :=
  match n with
  | Node.elem tg _ _ _ => tg == t
  | Node.text _ => false

def hasClass (c : String) (n : Node) : Bool :=
  match n with
  | Node.elem _ _ cls _ => cls.contains c
  | Node.text _ => false

def attrEq (n : Node) (k v : String) : Bool :=
  match n with
  | Node.elem _ attrs _ _ => List.lookup k attrs == some v
  | Node.text _ => false

/-- BeautifulSoup `node.get(k, dflt)` for string attributes. -/
def getAttr (n : Node) (k dflt : String) : String :=
  match n with
  | Node.elem _ attrs _ _ => (List.lookup k attrs).getD dflt
  | Node.text _ => dflt

/-- `find_all(..., limit=limit)`: the first `limit` matching descendants. -/
def findAllLimit (root : Node) (p : Node → Bool) (limit : Nat) : List Node :=
  ((nodeDescendants root).filter p).take limit

/-- `find(...)`: the first matching descendant. -/
def findNode (root : Node) (p : Node → Bool) : Option Node :=
  ((nodeDescendants root).filter p).head?

def divClass (c : String) (n : Node) : Bool := hasTag "div" n && hasClass c n

/-- The modern-schema post node: `<shreddit-post>`. -/
def isShredditPost (n : Node) : Bool := hasTag "shreddit-post" n

/-- The legacy-schema post node: `<div class="thing" data-type="link">`. -/
def isOldThing (n : Node) : Bool :=
  hasTag "div" n && hasClass "thing" n && attrEq n "data-type" "link"

/-! ## Regex helpers for the modern-schema field extraction -/

/-- Does `cs` begin with at least one whitespace character followed by
`u/` and a `[\w-]` character?  This is the continuation test for the lazy
prefix of `re.match(r'^(.+?)\s+u/[\w-]+', line)`: `\s+`, being followed by the
literal `u`, must stop exactly at the end of the whitespace run. -/
def mentionAfterWs (cs : List Char) : Bool :=
  match cs with
  | c :: _ =>
    isSpacePy c &&
      (match cs.dropWhile isSpacePy with
       | 'u' :: '/' :: d :: _ => isWordDash d
       | _ => false)
  | [] => false

/-- Grow the lazy group `(.+?)` (shortest first, `.` matching no newline)
until the rest of the line matches `\s+u/[\w-]+`. -/
def rmtaAux : List Char → List Char → Option (List Char)
  | _, [] => none
  | pre, c :: r =>
    if mentionAfterWs (c :: r) then some pre.reverse
    else if c == '\n' then none
    else rmtaAux (c :: pre) r

/-- `re.match(r'^(.+?)\s+u/[\w-]+', line)`, returning group 1. -/
def reMatchTitleAuthor : List Char → Option (List Char)
  | [] => none
  | c :: r => if c == '\n' then none else rmtaAux [c] r

/-- `re.search(r'u/([\w-]+)', line)`, returning group 1 of the leftmost match. -/
def reSearchMention : List Char → Option (List Char)
  | [] => none
  | c :: rest =>
    if c == 'u' then
      match rest with
      | '/' :: r =>
        let w := r.takeWhile isWordDash
        if w.isEmpty then reSearchMention rest else some w
      | _ => reSearchMention rest
    else reSearchMention rest

/-- One match attempt of `re.sub(r'\s*u/[\w-]+\s*', ' ', _)` at the current
position, returning the remainder after the match.  Greedy `\s*` runs cannot
backtrack usefully (the next pattern characters `u` and end-of-match are not
whitespace), so each run is maximal. -/
def subMentionOnce (cs : List Char) : Option (List Char) :=
  match cs.dropWhile isSpacePy with
  | 'u' :: '/' :: r =>
    if (r.takeWhile isWordDash).isEmpty then none
    else some ((r.dropWhile isWordDash).dropWhile isSpacePy)
  | _ => none

theorem dropWhile_length_le (p : Char → Bool) :
    ∀ l : List Char, (l.dropWhile p).length ≤ l.length := by
  intro l
  induction l with
  | nil => simp [List.dropWhile]
  | cons c r ih =>
    simp only [List.dropWhile]
    cases p c
    · simp
    · simp
      omega

theorem subMentionOnce_length_lt (cs res : List Char) (h : subMentionOnce cs = some res) :
    res.length < cs.length := by
  unfold subMentionOnce at h
  have hd : (cs.dropWhile isSpacePy).length ≤ cs.length := dropWhile_length_le _ _
  split at h
  next r heq =>
    split at h
    · exact absurd h (by simp)
    · have h1 : ((r.dropWhile isWordDash).dropWhile isSpacePy).length ≤ r.length := by
        calc ((r.dropWhile isWordDash).dropWhile isSpacePy).length
            ≤ (r.dropWhile isWordDash).length := dropWhile_length_le _ _
          _ ≤ r.length := dropWhile_length_le _ _
      have h2 : r.length + 2 ≤ cs.length := by
        have : (cs.dropWhile isSpacePy).length = r.length + 2 := by rw [heq]; simp
        omega
      have h3 : res = (r.dropWhile isWordDash).dropWhile isSpacePy := by
        simpa using h.symm
      subst h3
      omega
  next => exact absurd h (by simp)

/-- `re.sub(r'\s*u/[\w-]+\s*', ' ', s)`: scan left to right, replacing each
non-overlapping match with a single space.  Fuelled for structural recursion;
`subMentionOnce_length_lt` shows that fuel = input length always suffices. -/
def subMentionFuel : Nat → List Char → List Char
  | 0, s => s
  | _ + 1, [] => []
  | fuel + 1, c :: rest =>
    match subMentionOnce (c :: rest) with
    | some res => ' ' :: subMentionFuel fuel res
    | none => c :: subMentionFuel fuel rest

def subMention (s : List Char) : List Char := subMentionFuel s.length s

/-- One match attempt of `re.sub(r'\s*[•·]\s*', ' ', _)`. -/
def subBulletOnce (cs : List Char) : Option (List Char) :=
  match cs.dropWhile isSpacePy with
  | c :: r => if c == '•' || c == '·' then some (r.dropWhile isSpacePy) else none
  | [] => none

theorem subBulletOnce_length_lt (cs res : List Char) (h : subBulletOnce cs = some res) :
    res.length < cs.length := by
  unfold subBulletOnce at h
  have hd : (cs.dropWhile isSpacePy).length ≤ cs.length := dropWhile_length_le _ _
  split at h
  next c r heq =>
    split at h
    · have h1 : (r.dropWhile isSpacePy).length ≤ r.length := dropWhile_length_le _ _
      have h2 : r.length + 1 ≤ cs.length := by
        have : (cs.dropWhile isSpacePy).length = r.length + 1 := by rw [heq]; simp
        omega
      have h3 : res = r.dropWhile isSpacePy := by simpa using h.symm
      subst h3
      omega
    · exact absurd h (by simp)
  next => exact absurd h (by simp)

/-- `re.sub(r'\s*[•·]\s*', ' ', s)`, fuelled for structural recursion;
`subBulletOnce_length_lt` shows that fuel = input length always suffices. -/
def subBulletFuel : Nat → List Char → List Char
  | 0, s => s
  | _ + 1, [] => []
  | fuel + 1, c :: rest =>
    match subBulletOnce (c :: rest) with
    | some res => ' ' :: subBulletFuel fuel res
    | none => c :: subBulletFuel fuel rest

def subBullet (s : List Char) : List Char := subBulletFuel s.length s

/-! ## ThreadRecord and the per-node extraction (reddit_scraper.py lines 154-357) -/

structure Thread where
  thread_id : String
  subreddit : String
  title : String
  author : String
  posted_time : String
  created_date : String
  flair : String
  content : String
  url : String
deriving DecidableEq

/-- Python truthiness of the optional string fields: `None` and `""` are falsy. -/
def optFalsy (o : Option (List Char)) : Bool :=
  match o with
  | none => true
  | some l => l.isEmpty

/-- The mutable `title/author/posted_time/flair` variables of the modern-schema
line scan (lines 233-236), `none` standing for Python `None`. -/
structure ScanState where
  title : Option (List Char)
  author : Option (List Char)
  posted_time : Option (List Char)
  flair : Option (List Char)

def known_flairs : List String :=
  ["Discussion", "Scam", "Support", "Question", "Meta", "General", "Rumor", "News"]

/-- One iteration of the modern-schema pattern loop (lines 245-275), with
`next?` the following line (`lines[i+1]`).  The four `if` blocks run in order
and each sees the assignments of the previous ones. -/
def stepLine (st : ScanState) (line : List Char) (next? : Option (List Char)) : ScanState :=
  let s1 :=
    if line.length > 20 && optFalsy st.title && !containsSubL agoL line then
      if containsSubL mentionL line then
        match reMatchTitleAuthor line with
        | some g1 =>
          let a :=
            match reSearchMention line with
            | some am => if optFalsy st.author then some (mentionL ++ am) else st.author
            | none => st.author
          ⟨some (pyStripL g1), a, st.posted_time, st.flair⟩
        | none => st
      else ⟨some line, st.author, st.posted_time, st.flair⟩
    else st
  let s2 :=
    if List.isPrefixOf mentionL line && optFalsy s1.author then
      let pt :=
        match next? with
        | some nx => if containsSubL agoL nx || containsSubL hrL nx then some nx else s1.posted_time
        | none => s1.posted_time
      (⟨s1.title, some line, pt, s1.flair⟩ : ScanState)
    else s1
  let s3 :=
    if (containsSubL agoL line || (containsSubL hrL line && containsSubL dotL line))
        && optFalsy s2.posted_time then
      (⟨s2.title, s2.author, some line, s2.flair⟩ : ScanState)
    else s2
  if known_flairs.any (fun f => line == f.toList) then
    (⟨s3.title, s3.author, s3.posted_time, some line⟩ : ScanState)
  else s3

def scanLines : ScanState → List (List Char) → ScanState
  | st, [] => st
  | st, l :: rest => scanLines (stepLine st l rest.head?) rest

/-- Title cleanup (lines 278-296): strip mention tokens, bullet glyphs and
known flair strings, collapse whitespace, collapse a repeated first half when
the title has more than 10 words, and strip. -/
def cleanTitle (t0 : List Char) : List Char :=
  let t1 := subMention t0
  let t2 := subBullet t1
  let t3 := known_flairs.foldl (fun acc f => replaceAllL f.toList [] acc) t2
  let t4 := joinSpace (splitWs t3)
  let words := splitWs t4
  let t5 :=
    if words.length > 10 then
      let half := words.length / 2
      let fh := joinSpace (words.take half)
      if containsSubL fh (t4.drop fh.length) then fh else t4
    else t4
  pyStripL t5

/-- The alternative title pass (lines 299-308): scan lines again with a lower
threshold, excluding lines containing mentions or "ago"; every qualifying line
is cleaned and assigned, and the loop breaks at the first result of length ≥ 3. -/
def fallbackScan (cur : Option (List Char)) : List (List Char) → Option (List Char)
  | [] => cur
  | l :: rest =>
    if l.length > 10 && !containsSubL mentionL l && !containsSubL agoL l then
      let cand := pyStripL (joinSpace (splitWs (subBullet (subMention l))))
      if cand.length ≥ 3 then some cand else fallbackScan (some cand) rest
    else fallbackScan cur rest

/-- Python `line in [title, author, posted_time, flair]` (line 321); a string
never equals `None`. -/
def isAssignedField (l : List Char) (t a p f : Option (List Char)) : Bool :=
  t == some l || a == some l || p == some l || f == some l

/-- The body-collection loop for the modern schema (lines 318-325):
`content_start` flips at the line equal to the flair or the (truthy)
posted-time, and later lines not equal to any assigned field are collected. -/
def contentPartsAux (t a p f : Option (List Char)) : Bool → List (List Char) → List (List Char)
  | _, [] => []
  | started, l :: rest =>
    if started && !isAssignedField l t a p f then l :: contentPartsAux t a p f started rest
    else if f == some l || (!optFalsy p && p == some l) then contentPartsAux t a p f true rest
    else contentPartsAux t a p f started rest

/-- Line 326: the first three collected lines joined by spaces, or the first
200 characters of the whole node text when nothing was collected. -/
def newContent (lines : List (List Char)) (post_text : List Char)
    (t a p f : Option (List Char)) : List Char :=
  match contentPartsAux t a p f false lines with
  | [] => post_text.take 200
  | parts => joinSpace (parts.take 3)

/-- `post.get('id', '').replace('t3_', '')` (line 213). -/
def modern_post_id (post : Node) : String :=
  strReplace (getAttr post "id" "") "t3_" ""

/-- The stripped non-empty lines of the node's flattened text (line 230). -/
def linesOf (post_text : List Char) : List (List Char) :=
  ((splitCharAux '\n' [] post_text).map pyStripL).filter (fun l => !l.isEmpty)

def optStrOr (o : Option (List Char)) (dflt : String) : String :=
  match o with
  | some l => if l.isEmpty then dflt else String.mk l
  | none => dflt

/-- Modern-schema (`shreddit-post`) record construction: the heuristic text
segmentation of lines 219-340 for a node whose identifier is present. -/
def buildNewRecord (subreddit : String) (now : Int) (post : Node) : Thread :=
  let post_id := modern_post_id post
  let post_text := (get_text " " post).toList
  let lines := linesOf post_text
  let st := scanLines ⟨none, none, none, none⟩ lines
  let title1 : Option (List Char) :=
    if !optFalsy st.title then some (cleanTitle (st.title.getD [])) else st.title
  let title2 :=
    if optFalsy title1 || (title1.getD []).length < 3 then fallbackScan title1 lines else title1
  let title3 : List Char :=
    if optFalsy title2 || (title2.getD []).length < 3 then
      match lines with
      | l :: _ => l.take 100
      | [] => ("Post " ++ post_id).toList
    else title2.getD []
  let content := newContent lines post_text (some title3) st.author st.posted_time st.flair
  let created :=
    if !optFalsy st.posted_time then parse_relative_time now (String.mk (st.posted_time.getD []))
    else isoformat now
  ⟨post_id, subreddit, String.mk title3,
    optStrOr st.author "Unknown",
    optStrOr st.posted_time "Unknown",
    created,
    optStrOr st.flair "General",
    String.mk content,
    "https://www.reddit.com/r/" ++ subreddit ++ "/comments/" ++ post_id ++ "/"⟩

/-- Modern-schema node processing: a node whose id attribute yields an empty
identifier is skipped (`continue`, lines 215-217); every other node produces
exactly one record. -/
def processPostNew (subreddit : String) (now : Int) (post : Node) : Option Thread :=
  if modern_post_id post = "" then none else some (buildNewRecord subreddit now post)

/-- `title_elem.get_text(strip=True) if title_elem else None` (lines 169-170). -/
def old_title (post : Node) : Option String :=
  (findNode post (fun n => hasTag "a" n && hasClass "title" n)).map (fun e => get_text "" e)

/-- Legacy content, try 1 (lines 191-196): the expando self-text truncated to
1000 characters, or `""`. -/
def oldContentPrimary (post : Node) : String :=
  match findNode post (divClass "expando") with
  | some ex =>
    match findNode ex (divClass "usertext-body") with
    | some ut => strTake 1000 (get_text " " ut)
    | none => ""
  | none => ""

/-- Legacy content after try 2 (lines 198-203): when try 1 was empty, the
entry container's text truncated to 500 characters. -/
def oldContentSecondary (post : Node) : String :=
  if oldContentPrimary post = "" then
    match findNode post (divClass "entry") with
    | some e => strTake 500 (get_text " " e)
    | none => oldContentPrimary post
  else oldContentPrimary post

/-- The synthesized placeholder of line 207:
`f"Link post: {title}" if title else "No content available"`. -/
def oldPlaceholder (title? : Option String) : String :=
  match title? with
  | some t => if t = "" then "No content available" else "Link post: " ++ t
  | none => "No content available"

/-- The legacy-schema content fallback chain (lines 188-207): expando self-text
truncated to 1000, else entry text truncated to 500, else the synthesized
placeholder. -/
def oldContent (post : Node) (title? : Option String) : String :=
  if oldContentSecondary post = "" ∨ (oldContentSecondary post).length < 20 then
    oldPlaceholder title?
  else oldContentSecondary post

/-- Legacy-schema (`div.thing`) record construction (lines 162-209 and the
shared lines 328-340), given the (present) title.  The old-reddit `url` local
of lines 185-186 is computed by the code but never used: `thread_data['url']`
is always the `www.reddit.com` form of line 339. -/
def buildOldRecord (subreddit : String) (now : Int) (post : Node) (title : String) : Thread :=
  let pid0 := strReplace (getAttr post "data-fullname" "") "t3_" ""
  let post_id := if pid0 = "" then strReplace (getAttr post "id" "") "thing_t3_" "" else pid0
  let author :=
    match findNode post (fun n => hasTag "a" n && hasClass "author" n) with
    | some a => "u/" ++ get_text "" a
    | none => "Unknown"
  let posted_time :=
    match findNode post (fun n => hasTag "time" n) with
    | some t => getAttr t "title" "Unknown"
    | none => "Unknown"
  let flair :=
    match findNode post (fun n => hasTag "span" n && hasClass "linkflairlabel" n) with
    | some f => get_text "" f
    | none => "General"
  let content := oldContent post (some title)
  let created :=
    if posted_time ≠ "" then parse_relative_time now posted_time else isoformat now
  ⟨post_id, subreddit, title,
    (if author = "" then "Unknown" else author),
    (if posted_time = "" then "Unknown" else posted_time),
    created,
    (if flair = "" then "General" else flair),
    content,
    "https://www.reddit.com/r/" ++ subreddit ++ "/comments/" ++ post_id ++ "/"⟩

/-- Legacy-schema node processing.  There is no identifier check in the legacy
branch: a missing identifier yields an empty-string `thread_id`.  A node with
no title anchor sets `title = None`, and the debug interpolation
`title[:60]` at line 342 then raises `TypeError`, which the per-node handler
(lines 355-357) turns into a skip — so the node contributes no record. -/
def processPostOld (subreddit : String) (now : Int) (post : Node) : Option Thread :=
  match old_title post with
  | none => none
  | some t => some (buildOldRecord subreddit now post t)

/-- Lines 347-349: replace the record's content with the fetched body only
when that body is non-empty. -/
def enrichContent (r : Thread) (full_content : String) : Thread :=
  if full_content ≠ "" then
    ⟨r.thread_id, r.subreddit, r.title, r.author, r.posted_time, r.created_date, r.flair,
      full_content, r.url⟩
  else r

/-- Per-node processing with the schema dispatch of line 160
(`post.name == 'div' and 'thing' in post.get('class', [])`) and the optional
full-content enrichment (lines 344-350).  `fetchFn` is the network oracle
standing for `fetch_thread_content` of the record's url. -/
def processPost (subreddit : String) (now : Int) (fetchFull : Bool) (fetchFn : String → String)
    (post : Node) : Option Thread :=
  let base :=
    if hasTag "div" post && hasClass "thing" post then processPostOld subreddit now post
    else processPostNew subreddit now post
  match base with
  | none => none
  | some r => some (if fetchFull then enrichContent r (fetchFn r.url) else r)

/-- The `for post in posts` loop with the `len(threads) >= max_threads` break
(lines 154-157) and per-node skip semantics. -/
def scrapeLoop (proc : Node → Option Thread) (max_threads : Nat) :
    List Node → List Thread → List Thread
  | [], acc => acc
  | p :: ps, acc =>
    if max_threads ≤ acc.length then acc
    else
      match proc p with
      | some r => scrapeLoop proc max_threads ps (acc ++ [r])
      | none => scrapeLoop proc max_threads ps acc

/-- Schema detection (lines 142-150): collect modern nodes first (limit 5×max);
only when fewer than `max_threads` were found, look for legacy nodes
(limit 2×max) and prefer them outright when any exist. -/
def selectPosts (soup : Node) (max_threads : Nat) : List Node :=
  let posts := findAllLimit soup isShredditPost (max_threads * 5)
  if posts.length < max_threads then
    let old_posts := findAllLimit soup isOldThing (max_threads * 2)
    if !old_posts.isEmpty then old_posts else posts
  else posts

/-- The extraction part of `scrape_subreddit` applied to a fetched, parsed
listing page (lines 137-359): schema selection followed by the capped
per-node loop. -/
def scrape_listing (subreddit : String) (soup : Node) (max_threads : Nat)
    (fetchFull : Bool) (fetchFn : String → String) (now : Int) : List Thread :=
  scrapeLoop (processPost subreddit now fetchFull fetchFn) max_threads
    (selectPosts soup max_threads) []

/-! ## ThreadContentFetcher: `fetch_thread_content` (reddit_scraper.py lines 377-448)

The network request is abstracted as a `FetchOutcome`: either a response with a
status code and a parsed body, or a raised transport error (`requests.get`
raising before any response exists).  `raise_for_status()` raises exactly for
status codes in [400, 600); the bare `except` of lines 446-448 turns every
raised exception into `""`. -/

inductive FetchOutcome where
  | resp (status : Nat) (soup : Node)
  | transportError

/-- The fallback search of lines 430-441: the expando self-text inside the
first legacy post container. -/
def fetchFallback (soup : Node) : String :=
  match findNode soup isOldThing with
  | some thing =>
    match findNode thing (divClass "expando") with
    | some ex =>
      match findNode ex (divClass "usertext-body") with
      | some ut =>
        if get_text "\n" ut ≠ "" ∧ (get_text "\n" ut).length > 10
        then strTake 3000 (get_text "\n" ut) else ""
      | none => ""
    | none => ""
  | none => ""

/-- `post_body` of lines 419-424: the markdown sub-element's text when
present, else the raw usertext. -/
def fetchBodyText (ut : Node) : String :=
  match findNode ut (divClass "md") with
  | some md => get_text "\n" md
  | none => get_text "\n" ut

/-- `fetch_thread_content` applied to the outcome of its HTTP request. -/
def fetch_thread_content (outcome : FetchOutcome) : String :=
  match outcome with
  | FetchOutcome.transportError => ""
  | FetchOutcome.resp status soup =>
    if 400 ≤ status ∧ status < 600 then ""
    else
      match findNode soup (divClass "expando") with
      | some post_area =>
        match findNode post_area (divClass "usertext-body") with
        | some ut =>
          if fetchBodyText ut ≠ "" ∧ (fetchBodyText ut).length > 10
          then strTake 3000 (fetchBodyText ut)
          else fetchFallback soup
        | none => fetchFallback soup
      | none => fetchFallback soup

/-! ## RateLimiter (reddit_scraper.py lines 26-28, 119-133 and 395-408)

Both fetch paths run the same pattern inside a `try`:
sleep if needed, `response = requests.get(...)`, then
`self.last_request_time = time.time()`.  When `requests.get` raises, the
assignment on the next line never runs and the handler returns, so the field
keeps its previous value; when a response object is returned (any status code
— `raise_for_status()` only runs after the assignment), the field is set to
the current time.  Times are modelled as integers. -/

def lastRequestTimeAfter (last now : Int) : FetchOutcome → Int
  | FetchOutcome.resp _ _ => now
  | FetchOutcome.transportError => last

/-- The sleep imposed before a request (lines 121-129 / 396-404):
zero when `last_request_time` still holds its initial value 0. -/
def rateLimitSleep (last now random_delay : Int) : Int :=
  if 0 < last then
    (if now - last < random_delay then random_delay - (now - last) else 0)
  else 0

/-! ## DateRangeFilter: `filter_by_date_range` (reddit_scraper.py lines 450-497) -/

/-- The per-record test of lines 471-490: parse `created_date` and test
`start <= thread_date <= end`; a parse failure (the inner `except`) includes
the record. -/
def threadInRange (startv endv : Int) (t : Thread) : Bool :=
  match fromisoformat t.created_date with
  | some d => decide (startv ≤ d ∧ d ≤ endv)
  | none => true

/-- `filter_by_date_range`: parse the bounds (`end_date` with "T23:59:59"
appended, line 465); if either fails the outer `except` returns the input
unchanged; otherwise keep the records passing `threadInRange`. -/
def filter_by_date_range (threads : List Thread) (start_date end_date : String) : List Thread :=
  match fromisoformat start_date, fromisoformat (end_date ++ "T23:59:59") with
  | some s, some e => threads.filter (threadInRange s e)
  | _, _ => threads

/-! ## Claims C2 and C7 -/

/-- C2: the date filter is fail-open at both levels — a record whose
`created_date` does not parse is always included, and an unparseable
`start_date`/`end_date` pair returns the input list unchanged. -/
theorem c2_date_filter_fail_open :
    (∀ (threads : List Thread) (sd ed : String) (t : Thread),
        t ∈ threads → fromisoformat t.created_date = none →
        t ∈ filter_by_date_range threads sd ed) ∧
    (∀ (threads : List Thread) (sd ed : String),
        fromisoformat sd = none ∨ fromisoformat (ed ++ "T23:59:59") = none →
        filter_by_date_range threads sd ed = threads) := by
  constructor
  · intro threads sd ed t ht hparse
    unfold filter_by_date_range
    cases hs : fromisoformat sd with
    | none => exact ht
    | some sv =>
      cases he : fromisoformat (ed ++ "T23:59:59") with
      | none => exact ht
      | some ev =>
        refine List.mem_filter.mpr ⟨ht, ?_⟩
        unfold threadInRange
        rw [hparse]
  · intro threads sd ed h
    unfold filter_by_date_range
    rcases h with h | h
    · rw [h]
    · rw [h]
      cases fromisoformat sd <;> rfl

def threadBadDate : Thread :=
  ⟨"b1", "sub", "a title", "u/x", "2 hr. ago", "not-a-date", "General", "body", "u"⟩

theorem c2_date_filter_fail_open_witness :
    threadBadDate ∈ filter_by_date_range [threadBadDate] "2024-01-01" "2024-01-02" ∧
    filter_by_date_range [threadBadDate] "bogus" "2024-01-02" = [threadBadDate] :=
  ⟨c2_date_filter_fail_open.1 [threadBadDate] "2024-01-01" "2024-01-02" threadBadDate
      (by simp) (by decide),
    c2_date_filter_fail_open.2 [threadBadDate] "bogus" "2024-01-02" (Or.inl (by decide))⟩

def c7InRecord : Thread :=
  ⟨"a1", "sub", "kept", "u/x", "23 hr. ago", "2024-01-01T23:00:00", "General", "body", "u"⟩

def c7OutRecord : Thread :=
  ⟨"a2", "sub", "dropped", "u/y", "1 min. ago", "2024-01-02T00:00:01", "General", "body", "u"⟩

/-- C7: for the window 2024-01-01 .. 2024-01-01, the start parses as midnight
and the end as 23:59:59 of the same day, and a record with a parseable
`created_date` is kept exactly when that instant lies in the inclusive window;
concretely, "2024-01-01T23:00:00" is included and "2024-01-02T00:00:01"
excluded. -/
theorem c7_date_range_day_window :
    (∀ (threads : List Thread) (t : Thread) (d sv ev : Int),
        t ∈ threads →
        fromisoformat t.created_date = some d →
        fromisoformat "2024-01-01" = some sv →
        fromisoformat "2024-01-01T23:59:59" = some ev →
        (t ∈ filter_by_date_range threads "2024-01-01" "2024-01-01" ↔ sv ≤ d ∧ d ≤ ev)) ∧
    filter_by_date_range [c7InRecord, c7OutRecord] "2024-01-01" "2024-01-01" = [c7InRecord] := by
  constructor
  · intro threads t d sv ev ht hd hsv hev
    have happ : ("2024-01-01" ++ "T23:59:59" : String) = "2024-01-01T23:59:59" := rfl
    have hpred : threadInRange sv ev t = decide (sv ≤ d ∧ d ≤ ev) := by
      unfold threadInRange
      rw [hd]
    unfold filter_by_date_range
    rw [happ, hsv, hev, List.mem_filter, hpred]
    simp [ht]
  · decide

theorem c7_date_range_day_window_witness :
    c7InRecord ∈ filter_by_date_range [c7InRecord, c7OutRecord] "2024-01-01" "2024-01-01" ↔
      ((1704067200000000 : Int) ≤ 1704150000000000 ∧
        (1704150000000000 : Int) ≤ 1704153599000000) :=
  c7_date_range_day_window.1 [c7InRecord, c7OutRecord] c7InRecord
    1704150000000000 1704067200000000 1704153599000000
    (by simp) (by decide) (by decide) (by decide)

/-! ## Claims C5 and C8 -/

/-- C5 counterexample: when the HTTP request raises a transport error, the
assignment `self.last_request_time = time.time()` on the line after
`requests.get` never runs, so the field is NOT set to the current time — the
claim's "for successful and failed requests alike" fails for transport
failures.  Here the previous value is 5, the current time 100. -/
theorem c5_rate_limit_counterexample :
    lastRequestTimeAfter 5 100 FetchOutcome.transportError ≠ 100 := by decide

/-- C5 (amended): `last_request_time` is set to the current time immediately
after the request returns a response object — any status code, error statuses
included, since `raise_for_status()` runs only after the assignment — in both
fetch paths (lines 132-133 and 407-408, both modelled by
`lastRequestTimeAfter`); when the request raises a transport error the field
keeps its previous value; and when the field still holds its initial value 0,
no delay is imposed before the request. -/
theorem c5_rate_limit_amended :
    (∀ (last now : Int) (status : Nat) (soup : Node),
        lastRequestTimeAfter last now (FetchOutcome.resp status soup) = now) ∧
    (∀ last now : Int, lastRequestTimeAfter last now FetchOutcome.transportError = last) ∧
    (∀ now d : Int, rateLimitSleep 0 now d = 0) := by
  refine ⟨fun _ _ _ _ => rfl, fun _ _ => rfl, fun now d => ?_⟩
  unfold rateLimitSleep
  simp

/-- C8 counterexample: `raise_for_status()` raises only for statuses in
[400, 600), so a non-2xx status below 400 (here 304) with a parseable body is
NOT turned into the empty string — the claim's "non-2xx ⇒ empty string" fails. -/
def c8BodySoup : Node :=
  Node.elem "[document]" [] []
    [Node.elem "div" [] ["expando"]
      [Node.elem "div" [] ["usertext-body"]
        [Node.elem "div" [] ["md"] [Node.text "This is the post body text"]]]]

theorem c8_fetch_failure_counterexample :
    fetch_thread_content (FetchOutcome.resp 304 c8BodySoup) = "This is the post body text" ∧
    ¬(200 ≤ 304 ∧ 304 < 300) := by decide

/-- C8 (amended): `fetch_thread_content` returns the empty string — never an
exception — for every 4xx/5xx status (the statuses `raise_for_status` raises
on, 403 included) and for every transport error; and enrichment replaces the
record's content only when the fetched body is non-empty, so an empty result
leaves the inline snippet unchanged. -/
theorem c8_fetch_failure_amended :
    (∀ (status : Nat) (soup : Node), 400 ≤ status → status < 600 →
        fetch_thread_content (FetchOutcome.resp status soup) = "") ∧
    fetch_thread_content FetchOutcome.transportError = "" ∧
    (∀ r : Thread, enrichContent r "" = r) ∧
    (∀ (r : Thread) (fc : String), fc ≠ "" →
        enrichContent r fc =
          ⟨r.thread_id, r.subreddit, r.title, r.author, r.posted_time, r.created_date,
            r.flair, fc, r.url⟩) := by
  refine ⟨?_, rfl, ?_, ?_⟩
  · intro status soup h1 h2
    simp only [fetch_thread_content]
    rw [if_pos ⟨h1, h2⟩]
  · intro r
    unfold enrichContent
    simp
  · intro r fc h
    unfold enrichContent
    rw [if_pos h]

def c8SampleRecord : Thread :=
  ⟨"x1", "sub", "t", "u/a", "1 hr. ago", "2024-01-01T00:00:00", "General", "snippet", "u"⟩

theorem c8_fetch_failure_amended_witness :
    fetch_thread_content (FetchOutcome.resp 403 c8BodySoup) = "" ∧
    enrichContent c8SampleRecord "full body" =
      ⟨c8SampleRecord.thread_id, c8SampleRecord.subreddit, c8SampleRecord.title,
        c8SampleRecord.author, c8SampleRecord.posted_time, c8SampleRecord.created_date,
        c8SampleRecord.flair, "full body", c8SampleRecord.url⟩ :=
  ⟨c8_fetch_failure_amended.1 403 c8BodySoup (by decide) (by decide),
    c8_fetch_failure_amended.2.2.2 c8SampleRecord "full body" (by decide)⟩

/-! ## Claims C3 and C4 -/

/-- The capped per-node loop produces the records of the processed nodes in
order, keeping the first `max_threads` successfully processed ones (when the
accumulator is already full, `max_threads - acc.length = 0` and the take is
empty). -/
theorem scrapeLoop_eq_take_filterMap (proc : Node → Option Thread) (max_threads : Nat) :
    ∀ (posts : List Node) (acc : List Thread),
      scrapeLoop proc max_threads posts acc =
        acc ++ (posts.filterMap proc).take (max_threads - acc.length) := by
  intro posts
  induction posts with
  | nil =>
    intro acc
    simp [scrapeLoop]
  | cons p ps ih =>
    intro acc
    simp only [scrapeLoop]
    by_cases hm : max_threads ≤ acc.length
    · rw [if_pos hm]
      have h0 : max_threads - acc.length = 0 := by omega
      rw [h0]
      simp
    · rw [if_neg hm]
      cases hp : proc p with
      | none =>
        show scrapeLoop proc max_threads ps acc =
          acc ++ (List.filterMap proc (p :: ps)).take (max_threads - acc.length)
        rw [ih]
        simp only [List.filterMap_cons, hp]
      | some r =>
        show scrapeLoop proc max_threads ps (acc ++ [r]) =
          acc ++ (List.filterMap proc (p :: ps)).take (max_threads - acc.length)
        rw [ih]
        simp only [List.filterMap_cons, hp, List.length_append, List.length_singleton]
        have h1 : max_threads - acc.length = (max_threads - (acc.length + 1)) + 1 := by omega
        rw [h1, List.take_succ_cons, List.append_assoc, List.singleton_append]

def c3ModernNode : Node :=
  Node.elem "shreddit-post" [("id", "t3_mmm")] [] [Node.text "A modern post text body line"]

def c3LegacyNode : Node :=
  Node.elem "div" [("data-fullname", "t3_lll"), ("data-type", "link")] ["thing"]
    [Node.elem "a" [] ["title"] [Node.text "Legacy title"]]

def c3Soup : Node := Node.elem "[document]" [] [] [c3ModernNode, c3LegacyNode]

/-- C3 counterexample: legacy nodes are only searched when fewer than
`max_threads` modern nodes were found (line 144).  With `max_threads = 1`, a
listing containing one modern node and one legacy node yields the record of
the modern node ("mmm"), not of the legacy node — even though a legacy node is
present. -/
theorem c3_schema_preference_counterexample :
    (scrape_listing "s" c3Soup 1 false (fun _ => "") 0).map (fun r => r.thread_id) = ["mmm"] ∧
    (findAllLimit c3Soup isOldThing 2).length = 1 := by decide

/-- C3 (amended): when the number of modern-schema nodes found is below the
requested maximum AND legacy nodes are present, extraction runs on the
legacy-schema result set outright. -/
theorem c3_schema_preference_amended (sub : String) (soup : Node) (max_threads : Nat)
    (ff : Bool) (fn : String → String) (now : Int)
    (h1 : (findAllLimit soup isShredditPost (max_threads * 5)).length < max_threads)
    (h2 : findAllLimit soup isOldThing (max_threads * 2) ≠ []) :
    scrape_listing sub soup max_threads ff fn now =
      scrapeLoop (processPost sub now ff fn) max_threads
        (findAllLimit soup isOldThing (max_threads * 2)) [] := by
  have h3 : (findAllLimit soup isOldThing (max_threads * 2)).isEmpty = false := by
    cases hol : findAllLimit soup isOldThing (max_threads * 2) with
    | nil => exact absurd hol h2
    | cons a l => rfl
  unfold scrape_listing selectPosts
  rw [if_pos h1]
  simp [h3]

def c3OnlyLegacySoup : Node := Node.elem "[document]" [] [] [c3LegacyNode]

theorem c3_schema_preference_amended_witness :
    scrape_listing "s" c3OnlyLegacySoup 1 false (fun _ => "") 0 =
      scrapeLoop (processPost "s" 0 false (fun _ => "")) 1
        (findAllLimit c3OnlyLegacySoup isOldThing 2) [] :=
  c3_schema_preference_amended "s" c3OnlyLegacySoup 1 false (fun _ => "") 0
    (by decide) (List.length_pos.mp (by decide))

def c4NoIdLegacy : Node :=
  Node.elem "div" [("data-type", "link")] ["thing"]
    [Node.elem "a" [] ["title"] [Node.text "A legacy post with no id"]]

def c4Soup : Node := Node.elem "[document]" [] [] [c4NoIdLegacy]

/-- C4 counterexample: a legacy-schema node with no recoverable identifier (no
`data-fullname`, no `id`) still contributes one record, with an empty
`thread_id` — the identifier skip (`continue`, lines 215-217) exists only in
the modern-schema branch, so "lacking any recoverable identifier contributes
zero records" fails on legacy nodes. -/
theorem c4_identifier_counterexample :
    (scrape_listing "s" c4Soup 1 false (fun _ => "") 0).map
        (fun r => (r.thread_id, r.title)) =
      [("", "A legacy post with no id")] := by decide

/-- C4 (amended): a modern-schema node whose id attribute yields an empty
identifier contributes zero records; every modern-schema node with an
identifier contributes exactly one record (the title cascade always produces a
title); a legacy-schema node contributes a record exactly when its title
anchor exists (regardless of identifier — a missing identifier becomes the
empty string, while a missing title element aborts the node through the
logging `TypeError` of line 342); and the loop keeps the first `max_threads`
processed records, so a node processed past the cap contributes nothing. -/
theorem c4_identifier_amended :
    (∀ (sub : String) (now : Int) (post : Node),
        modern_post_id post = "" → processPostNew sub now post = none) ∧
    (∀ (sub : String) (now : Int) (post : Node),
        modern_post_id post ≠ "" → (processPostNew sub now post).isSome = true) ∧
    (∀ (sub : String) (now : Int) (post : Node),
        (processPostOld sub now post).isSome = (old_title post).isSome) ∧
    (∀ (proc : Node → Option Thread) (max_threads : Nat) (posts : List Node),
        scrapeLoop proc max_threads posts [] = (posts.filterMap proc).take max_threads) := by
  refine ⟨?_, ?_, ?_, ?_⟩
  · intro sub now post h
    unfold processPostNew
    rw [if_pos h]
  · intro sub now post h
    unfold processPostNew
    rw [if_neg h]
    rfl
  · intro sub now post
    unfold processPostOld
    cases old_title post <;> rfl
  · intro proc max_threads posts
    rw [scrapeLoop_eq_take_filterMap]
    simp

def c4ModernNoId : Node :=
  Node.elem "shreddit-post" [] [] [Node.text "A modern node without an id attribute"]

def c4ModernWithId : Node :=
  Node.elem "shreddit-post" [("id", "t3_zzz")] [] [Node.text "A modern node with an id"]

theorem c4_identifier_amended_witness :
    processPostNew "s" 0 c4ModernNoId = none ∧
    (processPostNew "s" 0 c4ModernWithId).isSome = true :=
  ⟨c4_identifier_amended.1 "s" 0 c4ModernNoId (by decide),
    c4_identifier_amended.2.1 "s" 0 c4ModernWithId (by decide)⟩

/-! ## Claims C6 and C9 -/

theorem strTake_length_le (n : Nat) (s : String) : (strTake n s).length ≤ n := by
  show (s.toList.take n).length ≤ n
  rw [List.length_take]
  exact min_le_left _ _

theorem fetchFallback_length_le (soup : Node) : (fetchFallback soup).length ≤ 3000 := by
  unfold fetchFallback
  repeat' split
  all_goals first
    | exact strTake_length_le _ _
    | decide

theorem oldContentPrimary_length_le (post : Node) :
    (oldContentPrimary post).length ≤ 1000 := by
  unfold oldContentPrimary
  repeat' split
  all_goals first
    | exact strTake_length_le _ _
    | decide

theorem oldContentSecondary_length_le (post : Node) :
    (oldContentSecondary post).length ≤ 1000 := by
  unfold oldContentSecondary
  repeat' split
  all_goals first
    | exact le_trans (strTake_length_le _ _) (by omega)
    | exact oldContentPrimary_length_le _

def c6LongLine : String := String.mk (List.replicate 600 'b')

def c6Text : String := "Discussion\nThis is a reasonably long title line\n" ++ c6LongLine

def c6Node : Node := Node.elem "shreddit-post" [("id", "t3_c6")] [] [Node.text c6Text]

def c6Soup : Node := Node.elem "[document]" [] [] [c6Node]

set_option maxRecDepth 8000 in
/-- C6 counterexample: the modern-schema inline snippet is the join of up to
three full lines of the node text and has no constant bound.  A listing node
whose text carries a 600-character line after the flair line yields a record
whose inline content (no thread fetch, `fetch_full_content = false`) has
length 600 — beyond the claimed ~200-500 bound for inline snippets (and the
same join grows with the line, so no constant bound exists). -/
theorem c6_body_bound_counterexample :
    (scrape_listing "s" c6Soup 1 false (fun _ => "") 0).map (fun r => r.content.length) =
      [600] ∧ ¬(600 ≤ 500) := by decide

/-- C6 (amended): the bounds that do hold.  Fetched thread content is at most
3000 characters on every outcome; the legacy inline snippet is at most 1000
characters (1000 for the expando text, 500 for the entry text, 20 for
"No content available") except for the "Link post: {title}" fallback, whose
length follows the title; and the modern inline snippet is at most 200
characters when no content lines were collected (otherwise it is the join of
up to three uncapped lines, as the counterexample shows). -/
theorem c6_body_bound_amended :
    (∀ o : FetchOutcome, (fetch_thread_content o).length ≤ 3000) ∧
    (∀ (post : Node) (title? : Option String),
        (oldContent post title?).length ≤ 1000 ∨
          (∃ t, title? = some t ∧ oldContent post title? = "Link post: " ++ t)) ∧
    (∀ (lines : List (List Char)) (post_text : List Char) (t a p f : Option (List Char)),
        contentPartsAux t a p f false lines = [] →
        (newContent lines post_text t a p f).length ≤ 200) := by
  refine ⟨?_, ?_, ?_⟩
  · intro o
    cases o with
    | transportError => decide
    | resp status soup =>
      simp only [fetch_thread_content]
      repeat' split
      all_goals first
        | exact strTake_length_le _ _
        | exact fetchFallback_length_le _
        | decide
  · intro post title?
    unfold oldContent
    split
    · cases title? with
      | none => exact Or.inl (by decide)
      | some t =>
        by_cases ht : t = ""
        · refine Or.inl ?_
          simp only [oldPlaceholder, if_pos ht]
          decide
        · refine Or.inr ⟨t, rfl, ?_⟩
          simp only [oldPlaceholder, if_neg ht]
    · exact Or.inl (oldContentSecondary_length_le _)
  · intro lines post_text t a p f h
    unfold newContent
    rw [h]
    show (post_text.take 200).length ≤ 200
    rw [List.length_take]
    exact min_le_left _ _

theorem c6_body_bound_amended_witness :
    (newContent [] ("x".toList) none none none none).length ≤ 200 :=
  c6_body_bound_amended.2.2 [] ("x".toList) none none none none (by decide)

def c9Text : String :=
  "My widget broke after a week u/alice 3 days ago Discussion It stopped working entirely"

def c9Node : Node := Node.elem "shreddit-post" [("id", "t3_abc")] [] [Node.text c9Text]

/-- C9 counterexample: on the Scenario C node the extracted author is
"Unknown" (not "u/alice") and the category is "General" (not "Discussion").
The flattened line contains "ago", so the primary title pass skips it, no line
starts with "u/", and no line equals a known flair. -/
theorem c9_scenario_c_counterexample :
    (processPostNew "s" 0 c9Node).map (fun r => r.author) = some "Unknown" ∧
    (processPostNew "s" 0 c9Node).map (fun r => r.flair) = some "General" := by decide

/-- C9 (amended): the Scenario C node is extracted into a record whose title
is the entire flattened line (which does contain "My widget broke after a
week"), whose author is "Unknown", whose posted-time phrase is the entire
flattened line (captured by the "ago" test), and whose category is the
default "General". -/
theorem c9_scenario_c_amended :
    (processPostNew "s" 0 c9Node).map (fun r => r.title) = some c9Text ∧
    containsSubL ("My widget broke after a week".toList) c9Text.toList = true ∧
    (processPostNew "s" 0 c9Node).map (fun r => r.posted_time) = some c9Text ∧
    (processPostNew "s" 0 c9Node).map (fun r => r.author) = some "Unknown" ∧
    (processPostNew "s" 0 c9Node).map (fun r => r.flair) = some "General" := by decide
